import Mathlib

/-!
Verification of the `run` pipeline library (src/run/__init__.py) against its
specification.  The Python module is shallowly embedded: `create_process`
models `run.create_process`, `run_new` models `run.__new__`, the lazy
property reads (`run_status`, `run_stdout`, `run_stderr`) are modelled as
explicit state transformers over a per-stage `ReadState`, and the external
OS process collaborator (`subprocess.Popen` plus the behaviour of the
spawned commands) is modelled by a `Popen` record together with an oracle
assigning each spawned process an exit code and output texts.
-/

namespace SubprocessRun

/-- A command specification: a raw shell-syntax string or an already
tokenized argument vector (the two accepted forms in
`run.create_process`). -/
inductive Cmd where
  | str (s : String)
  | argv (tokens : List String)
deriving DecidableEq

/-- Python values used for stream wiring: the `subprocess.PIPE` sentinel,
Python `None` (inherit the caller's stream), or a concrete readable stream
handle (for example `sys.stdin` or a process's captured stdout pipe). -/
inductive StdSpec where
  | pipe
  | noneVal
  | stream (id : Nat)
deriving DecidableEq

/-- The exceptions this module can surface: the explicit
`ValueError` raised in `create_process`, the `UnboundLocalError` that
`return obj` raises in `run.__new__` when the argument loop never ran, and
the `subprocess.CalledProcessError` raised by `check_returncode`. -/
inductive PyError where
  | valueError (msg : String)
  | unboundLocalError
  | calledProcessError (returncode : Int) (cmd : Cmd)
deriving DecidableEq

/-- True exactly for the errors produced by a `raise` statement in the
source (`ValueError`, `CalledProcessError`); the `UnboundLocalError` is
accidental — it arises from referencing the never-assigned loop variable
`obj`, not from an explicitly coded rejection. -/
def PyError.isExplicitlyRaised : PyError → Bool
  | PyError.unboundLocalError => false
  | _ => true

/-- Split a character list at every separator character selected by `p`,
keeping empty fields: the semantics of Python's `str.split(sep)` lifted to
character lists. -/
def splitPred (p : Char → Bool) : List Char → List (List Char)
  | [] => [[]]
  | c :: rest =>
    if p c then [] :: splitPred p rest
    else
      match splitPred p rest with
      | [] => [[c]]
      | l :: ls => (c :: l) :: ls

/-- Python `s.split(sep)` for a one-character separator: split at every
occurrence, keeping empty fields (so a trailing separator yields a trailing
empty string). -/
def pySplitOn (sep : Char) (s : String) : List String :=
  (splitPred (fun c => c == sep) s.data).map (fun l => String.mk l)

/-- Python `s.split()` with no argument: split on whitespace runs,
dropping empty tokens (so `"".split()` is `[]`). -/
def pyWhitespaceSplit (s : String) : List String :=
  ((splitPred Char.isWhitespace s.data).filter (fun l => !l.isEmpty)).map
    (fun l => String.mk l)

/-- Model of the external `shlex.split` collaborator, for quote-free
command strings (all commands considered here), where it coincides with
whitespace tokenization. -/
def shlexSplit (s : String) : List String :=
  pyWhitespaceSplit s

/-- The `std_output.lines` view: `self.split("\n")`. -/
def std_output.lines (s : String) : List String :=
  pySplitOn (Char.ofNat 10) s

/-- The `std_output.qlines` view: `[line.split() for line in self.split("\n")]`. -/
def std_output.qlines (s : String) : List (List String) :=
  (pySplitOn (Char.ofNat 10) s).map pyWhitespaceSplit

/-- Value of `std_output(x)` applied to the stream results of `communicate()`: for an
actual text it is that text, and `std_output(None)` is the string
`"None"` (Python's `str(None)`). -/
def pyStr : Option String → String
  | none => "None"
  | some t => t

/-- Python `str(command)`, the value `str.__new__(run, command)` bakes into
the result object: a string command is itself; a token list renders as the
Python list repr. -/
def pyQuote (t : String) : String :=
  String.singleton (Char.ofNat 39) ++ t ++ String.singleton (Char.ofNat 39)

/-- Python `repr` of a list of strings, a bracketed, comma-separated list of singly quoted tokens. -/
def pyReprList (ts : List String) : String :=
  "[" ++ String.intercalate ", " (ts.map pyQuote) ++ "]"

/-- Python `str(command)` for the two command forms. -/
def pyStrOfCmd : Cmd → String
  | Cmd.str s => s
  | Cmd.argv ts => pyReprList ts

/-- The first `Popen` argument:
`shlex.split(command) if isinstance(command, str_type) else command`. -/
def popenArgs : Cmd → List String
  | Cmd.str s => shlexSplit s
  | Cmd.argv ts => ts

/-- Python `dict(base)` followed by `update(upd)`: explicit keys win,
unspecified base keys pass through. -/
def dictUpdate (base upd : List (String × String)) : List (String × String) :=
  base.filter (fun kv => upd.all (fun kv2 => kv2.fst != kv.fst)) ++ upd

/-- The observable state of one `subprocess.Popen` object as created by
`create_process`: the argv, the keyword wiring passed for the three
standard streams, and the OS-assigned pid. -/
structure Popen where
  args : List String
  universalNewlines : Bool
  shell : Bool
  cwd : Option String
  env : List (String × String)
  stdinSpec : StdSpec
  stdoutSpec : Option StdSpec
  stderrSpec : Option StdSpec
  bufsize : Nat
  pid : Nat
deriving DecidableEq

/-- The `process.stdout` attribute: a readable stream object exists only
when `stdout=subprocess.PIPE` was passed to `Popen`; otherwise the
attribute is Python `None`. -/
def Popen.stdoutAttr (p : Popen) : StdSpec :=
  if p.stdoutSpec = some StdSpec.pipe then StdSpec.stream p.pid else StdSpec.noneVal

/-- The construction-time options of one pipeline: `cwd`, the merged
environment, and the `shell` flag (`run.__new__` lines 144-148). -/
structure BuildCtx where
  cwd : Option String
  env : List (String × String)
  shell : Bool
deriving DecidableEq

/-- Model of `run.create_process` (src/run/__init__.py lines 120-140): raise
`ValueError` when `capture_output` is combined with explicit
`stdout`/`stderr` keyword arguments; otherwise spawn a `Popen` with
`universal_newlines=True`, `bufsize=0`, the given stdin wiring, and
`stdout`/`stderr` set to pipes only when `capture_output` is true.  The
`pid` argument models the OS-assigned process id. -/
def create_process (ctx : BuildCtx) (command : Cmd) (stdin : StdSpec) (pid : Nat)
    (capture_output : Bool) (kwStdout kwStderr : Option StdSpec) :
    Except PyError Popen :=
  if capture_output && (kwStdout.isSome || kwStderr.isSome) then
    Except.error (PyError.valueError "capture_output will override stdout/stderr kwargs")
  else
    Except.ok
      { args := popenArgs command
        universalNewlines := true
        shell := ctx.shell
        cwd := ctx.cwd
        env := ctx.env
        stdinSpec := stdin
        stdoutSpec := if capture_output then some StdSpec.pipe else kwStdout
        stderrSpec := if capture_output then some StdSpec.pipe else kwStderr
        bufsize := 0
        pid := pid }

/-- The `Popen` a call from `run.__new__` produces: `create_process` is
invoked there with `capture_output` left `False` and no stream keyword
arguments, so neither stdout nor stderr is a pipe. -/
def mkRunPopen (ctx : BuildCtx) (command : Cmd) (stdin : StdSpec) (pid : Nat) : Popen :=
  { args := popenArgs command
    universalNewlines := true
    shell := ctx.shell
    cwd := ctx.cwd
    env := ctx.env
    stdinSpec := stdin
    stdoutSpec := none
    stderrSpec := none
    bufsize := 0
    pid := pid }

/-- One stage object of the pipeline, as set up in `run.__new__`: the
string value baked in by `str.__new__(run, command)`, the `command`, the
owned `process`, and its `pid`.  (The `chain` attribute is tracked
separately, paired with each stage, because Python stores into it a
reference to the stage object itself.) -/
structure StageCore where
  strValue : String
  command : Cmd
  process : Popen
  pid : Nat
deriving DecidableEq

/-- The stage `run.__new__` builds for `command` when the running `stdin`
variable holds `stdin`. -/
def stageOf (ctx : BuildCtx) (command : Cmd) (stdin : StdSpec) (pid : Nat) : StageCore :=
  { strValue := pyStrOfCmd command
    command := command
    process := mkRunPopen ctx command stdin pid
    pid := pid }

/-- The `for command in args` loop of `run.__new__` (lines 150-166): launch
each command with the running `stdin`, then set `stdin = process.stdout`;
append the new stage to the running `chain` list and give the stage a copy
`chain[:]` of it.  Returns, per command, the stage together with its
recorded chain snapshot. -/
def runNewLoop (ctx : BuildCtx) :
    List Cmd → StdSpec → Nat → List StageCore →
    Except PyError (List (StageCore × List StageCore))
  | [], _, _, _ => Except.ok []
  | command :: rest, stdin, pid, chain =>
    match create_process ctx command stdin pid false none none with
    | Except.error e => Except.error e
    | Except.ok p =>
      let obj : StageCore :=
        { strValue := pyStrOfCmd command, command := command, process := p, pid := p.pid }
      let chain2 := chain ++ [obj]
      match runNewLoop ctx rest (Popen.stdoutAttr p) (pid + 1) chain2 with
      | Except.error e => Except.error e
      | Except.ok tail => Except.ok ((obj, chain2) :: tail)

/-- Model of `run.__new__` (lines 142-168): merge `env` over the ambient
environment, default `stdin` to `subprocess.PIPE`, run the construction
loop, and return the last stage built; with zero commands the final
`return obj` references the never-assigned loop variable and raises
`UnboundLocalError`. -/
def run_new (ambientEnv envKw : List (String × String)) (cwd : Option String)
    (shell : Bool) (stdinKw : Option StdSpec) (args : List Cmd) :
    Except PyError (StageCore × List StageCore) :=
  let ctx : BuildCtx := { cwd := cwd, env := dictUpdate ambientEnv envKw, shell := shell }
  let stdin0 := stdinKw.getD StdSpec.pipe
  match runNewLoop ctx args stdin0 0 [] with
  | Except.error e => Except.error e
  | Except.ok res =>
    match res.getLast? with
    | none => Except.error PyError.unboundLocalError
    | some r => Except.ok r

/-- What the OS makes of a spawned process: its exit code and the texts it
writes to its stdout and stderr.  An oracle parameterizes every theorem
about process behaviour. -/
structure ProcBeh where
  code : Int
  outText : String
  errText : String

/-- The external-OS oracle: each spawned process's behaviour. -/
abbrev OsOracle := Popen → ProcBeh

/-- The lazy-read state of one stage: how many times
`process.communicate()` has been invoked on its process, and the `_status`
attribute (absent until the first `status` read). -/
structure ReadState where
  commCount : Nat
  statusAttr : Option Int
deriving DecidableEq

/-- The fresh state of a just-constructed stage: no communicate call yet,
no `_status` attribute. -/
def freshState : ReadState :=
  { commCount := 0, statusAttr := none }

/-- The pair `Popen.communicate()` returns: the captured stdout and stderr
texts when the respective stream is a pipe, Python `None` otherwise. -/
def communicateResult (os : OsOracle) (p : Popen) : Option String × Option String :=
  (if p.stdoutSpec = some StdSpec.pipe then some (os p).outText else none,
   if p.stderrSpec = some StdSpec.pipe then some (os p).errText else none)

/-- The `run.status` property (lines 183-189): when the `_status`
attribute is absent, invoke `communicate()` (one more primitive call) and
store `process.returncode`; always return the stored value. -/
def run_status (os : OsOracle) (p : Popen) (s : ReadState) : Int × ReadState :=
  match s.statusAttr with
  | some v => (v, s)
  | none => ((os p).code, { commCount := s.commCount + 1, statusAttr := some (os p).code })

/-- The `run.stdout` property (lines 191-193):
`std_output(self.process.communicate()[0])` — a fresh `communicate()`
invocation on every read, nothing cached. -/
def run_stdout (os : OsOracle) (p : Popen) (s : ReadState) : String × ReadState :=
  (pyStr (communicateResult os p).fst, { s with commCount := s.commCount + 1 })

/-- The `run.stderr` property (lines 195-197):
`std_output(self.process.communicate()[1])` — a fresh `communicate()`
invocation on every read, nothing cached. -/
def run_stderr (os : OsOracle) (p : Popen) (s : ReadState) : String × ReadState :=
  (pyStr (communicateResult os p).snd, { s with commCount := s.commCount + 1 })

/-- Model of `run.check_returncode` (lines 172-177): read `self.returncode` (the
`status` property); when non-zero, read it again for the exception payload
and raise `CalledProcessError` with that code and `self.command`. -/
def check_returncode (os : OsOracle) (p : Popen) (cmd : Cmd) (s : ReadState) :
    Except PyError Unit × ReadState :=
  let r1 := run_status os p s
  if r1.fst ≠ 0 then
    let r2 := run_status os p r1.snd
    (Except.error (PyError.calledProcessError r2.fst cmd), r2.snd)
  else
    (Except.ok (), r1.snd)

/-- Display form of one command, used by `run.__repr__` (lines 199-203): join every chained stage's command —
the string itself, or the token list joined by spaces — with " | ". -/
def displayCmd : Cmd → String
  | Cmd.str s => s
  | Cmd.argv ts => String.intercalate " " ts

/-- The repr of a result whose chain is `chain`. -/
def run_repr (chain : List StageCore) : String :=
  String.intercalate " | " (chain.map (fun e => displayCmd e.command))

/-- Closed form of the stage list the construction loop builds: after the
first stage, the running `stdin` variable always holds
`process.stdout = None`, because `run.__new__` never requests capture. -/
def stagesSpec (ctx : BuildCtx) : List Cmd → StdSpec → Nat → List StageCore
  | [], _, _ => []
  | c :: rest, stdin, pid =>
    stageOf ctx c stdin pid :: stagesSpec ctx rest StdSpec.noneVal (pid + 1)

/-- Closed form of the successful result of `runNewLoop`: each stage paired
with its chain snapshot. -/
def loopSpec (ctx : BuildCtx) :
    List Cmd → StdSpec → Nat → List StageCore → List (StageCore × List StageCore)
  | [], _, _, _ => []
  | c :: rest, stdin, pid, chain =>
    let obj := stageOf ctx c stdin pid
    let chain2 := chain ++ [obj]
    (obj, chain2) :: loopSpec ctx rest StdSpec.noneVal (pid + 1) chain2

/-- One public read on a result handle. -/
inductive ReadOp where
  | statusOp
  | stdoutOp
  | stderrOp
deriving DecidableEq

/-- Perform one read, keeping only the state. -/
def doRead (os : OsOracle) (p : Popen) : ReadOp → ReadState → ReadState
  | ReadOp.statusOp, s => (run_status os p s).snd
  | ReadOp.stdoutOp, s => (run_stdout os p s).snd
  | ReadOp.stderrOp, s => (run_stderr os p s).snd

/-- Perform a sequence of reads on one stage. -/
def runReads (os : OsOracle) (p : Popen) : List ReadOp → ReadState → ReadState
  | [], s => s
  | op :: ops, s => runReads os p ops (doRead os p op s)

/-- How many `communicate()` invocations a read sequence performs, given
whether the `_status` attribute is already populated: one per
stdout/stderr read, and one for a status read only while the attribute is
still absent. -/
def commInvocations : List ReadOp → Bool → Nat
  | [], _ => 0
  | ReadOp.statusOp :: ops, cached =>
    (if cached then 0 else 1) + commInvocations ops true
  | ReadOp.stdoutOp :: ops, cached => 1 + commInvocations ops cached
  | ReadOp.stderrOp :: ops, cached => 1 + commInvocations ops cached

/-- A concrete construction context for concrete evaluations. -/
def ctx0 : BuildCtx :=
  { cwd := none, env := [], shell := false }

/-- A concrete oracle: every process prints "hello\n", writes nothing to
stderr, and exits 0. -/
def demoOs : OsOracle := fun _ =>
  { code := 0, outText := "hello\n", errText := "" }

/-- A concrete process handle as `run.__new__` creates them. -/
def demoPopen : Popen :=
  mkRunPopen ctx0 (Cmd.str "cat") StdSpec.pipe 0

theorem create_process_run (ctx : BuildCtx) (c : Cmd) (stdin : StdSpec) (pid : Nat) :
    create_process ctx c stdin pid false none none = Except.ok (mkRunPopen ctx c stdin pid) := rfl

theorem stdoutAttr_mkRunPopen (ctx : BuildCtx) (c : Cmd) (stdin : StdSpec) (pid : Nat) :
    Popen.stdoutAttr (mkRunPopen ctx c stdin pid) = StdSpec.noneVal := rfl

theorem runNewLoop_eq (ctx : BuildCtx) :
    ∀ (cmds : List Cmd) (stdin : StdSpec) (pid : Nat) (chain : List StageCore),
      runNewLoop ctx cmds stdin pid chain = Except.ok (loopSpec ctx cmds stdin pid chain) := by
  intro cmds
  induction cmds with
  | nil => intro stdin pid chain; rfl
  | cons c rest ih =>
    intro stdin pid chain
    simp [runNewLoop, create_process_run, Popen.stdoutAttr, ih, loopSpec, stageOf, mkRunPopen]

theorem loopSpec_map_fst (ctx : BuildCtx) :
    ∀ (cmds : List Cmd) (stdin : StdSpec) (pid : Nat) (chain : List StageCore),
      (loopSpec ctx cmds stdin pid chain).map Prod.fst = stagesSpec ctx cmds stdin pid := by
  intro cmds
  induction cmds with
  | nil => intro stdin pid chain; rfl
  | cons c rest ih =>
    intro stdin pid chain
    simp [loopSpec, stagesSpec, ih]

theorem loopSpec_map_snd (ctx : BuildCtx) :
    ∀ (cmds : List Cmd) (stdin : StdSpec) (pid : Nat) (chain : List StageCore),
      (loopSpec ctx cmds stdin pid chain).map Prod.snd =
        (List.range cmds.length).map
          (fun i => chain ++ (stagesSpec ctx cmds stdin pid).take (i + 1)) := by
  intro cmds
  induction cmds with
  | nil => intro stdin pid chain; rfl
  | cons c rest ih =>
    intro stdin pid chain
    simp only [loopSpec, stagesSpec, List.map_cons, List.length_cons,
      List.range_succ_eq_map, List.map_map]
    refine congrArg₂ List.cons ?_ ?_
    · simp [List.take_succ_cons]
    · rw [ih]
      refine List.map_congr_left ?_
      intro i _
      simp [Function.comp, List.take_succ_cons, List.append_assoc]

theorem loopSpec_snd_getLast (ctx : BuildCtx) :
    ∀ (cmds : List Cmd) (stdin : StdSpec) (pid : Nat) (chain : List StageCore)
      (e : StageCore × List StageCore), e ∈ loopSpec ctx cmds stdin pid chain →
      e.snd.getLast? = some e.fst := by
  intro cmds
  induction cmds with
  | nil => intro stdin pid chain e he; simp [loopSpec] at he
  | cons c rest ih =>
    intro stdin pid chain e he
    simp only [loopSpec, List.mem_cons] at he
    rcases he with he | he
    · subst he; simp [List.getLast?_concat]
    · exact ih StdSpec.noneVal (pid + 1) (chain ++ [stageOf ctx c stdin pid]) e he

theorem loopSpec_append_take (ctx : BuildCtx) :
    ∀ (cs ds : List Cmd) (stdin : StdSpec) (pid : Nat) (chain : List StageCore),
      (loopSpec ctx (cs ++ ds) stdin pid chain).take cs.length =
        loopSpec ctx cs stdin pid chain := by
  intro cs
  induction cs with
  | nil => intro ds stdin pid chain; rfl
  | cons c rest ih =>
    intro ds stdin pid chain
    simp only [List.cons_append, loopSpec, List.length_cons, List.take_succ_cons, List.append_eq, ih]

theorem stagesSpec_map_command (ctx : BuildCtx) :
    ∀ (cmds : List Cmd) (stdin : StdSpec) (pid : Nat),
      (stagesSpec ctx cmds stdin pid).map (fun st => st.command) = cmds := by
  intro cmds
  induction cmds with
  | nil => intro stdin pid; rfl
  | cons c rest ih => intro stdin pid; simp [stagesSpec, stageOf, ih]

theorem stagesSpec_map_strValue (ctx : BuildCtx) :
    ∀ (cmds : List Cmd) (stdin : StdSpec) (pid : Nat),
      (stagesSpec ctx cmds stdin pid).map (fun st => st.strValue) = cmds.map pyStrOfCmd := by
  intro cmds
  induction cmds with
  | nil => intro stdin pid; rfl
  | cons c rest ih => intro stdin pid; simp [stagesSpec, stageOf, ih]

theorem getLast?_cons_of_ne_nil {α : Type _} (a : α) {l : List α} (h : l ≠ []) :
    (a :: l).getLast? = l.getLast? := by
  cases l with
  | nil => exact absurd rfl h
  | cons b t => exact List.getLast?_cons_cons

theorem loopSpec_getLast (ctx : BuildCtx) :
    ∀ (cmds : List Cmd) (stdin : StdSpec) (pid : Nat) (chain : List StageCore),
      cmds ≠ [] →
      ∃ last, (stagesSpec ctx cmds stdin pid).getLast? = some last ∧
        (loopSpec ctx cmds stdin pid chain).getLast? =
          some (last, chain ++ stagesSpec ctx cmds stdin pid) := by
  intro cmds
  induction cmds with
  | nil => intro stdin pid chain h; exact absurd rfl h
  | cons c rest ih =>
    intro stdin pid chain _
    cases rest with
    | nil =>
      refine ⟨stageOf ctx c stdin pid, ?_, ?_⟩
      · rfl
      · rfl
    | cons c2 rest2 =>
      obtain ⟨last, h1, h2⟩ :=
        ih StdSpec.noneVal (pid + 1) (chain ++ [stageOf ctx c stdin pid]) (by simp)
      have hne : stagesSpec ctx (c2 :: rest2) StdSpec.noneVal (pid + 1) ≠ [] := by
        simp [stagesSpec]
      have hne2 : loopSpec ctx (c2 :: rest2) StdSpec.noneVal (pid + 1)
          (chain ++ [stageOf ctx c stdin pid]) ≠ [] := by
        simp [loopSpec]
      refine ⟨last, ?_, ?_⟩
      · rw [show stagesSpec ctx (c :: c2 :: rest2) stdin pid =
              stageOf ctx c stdin pid :: stagesSpec ctx (c2 :: rest2) StdSpec.noneVal (pid + 1)
            from rfl,
          getLast?_cons_of_ne_nil _ hne, h1]
      · rw [show loopSpec ctx (c :: c2 :: rest2) stdin pid chain =
              (stageOf ctx c stdin pid, chain ++ [stageOf ctx c stdin pid]) ::
                loopSpec ctx (c2 :: rest2) StdSpec.noneVal (pid + 1)
                  (chain ++ [stageOf ctx c stdin pid])
            from rfl,
          getLast?_cons_of_ne_nil _ hne2, h2]
        rw [show stagesSpec ctx (c :: c2 :: rest2) stdin pid =
              stageOf ctx c stdin pid :: stagesSpec ctx (c2 :: rest2) StdSpec.noneVal (pid + 1)
            from rfl]
        simp [List.append_assoc]

theorem run_new_ok (aEnv eKw : List (String × String)) (cwd : Option String) (sh : Bool)
    (stdinKw : Option StdSpec) (cmds : List Cmd) (h : cmds ≠ []) :
    ∃ last,
      (stagesSpec { cwd := cwd, env := dictUpdate aEnv eKw, shell := sh } cmds
          (stdinKw.getD StdSpec.pipe) 0).getLast? = some last ∧
      run_new aEnv eKw cwd sh stdinKw cmds =
        Except.ok (last, stagesSpec { cwd := cwd, env := dictUpdate aEnv eKw, shell := sh } cmds
          (stdinKw.getD StdSpec.pipe) 0) := by
  obtain ⟨last, h1, h2⟩ :=
    loopSpec_getLast { cwd := cwd, env := dictUpdate aEnv eKw, shell := sh } cmds
      (stdinKw.getD StdSpec.pipe) 0 [] h
  rw [List.nil_append] at h2
  refine ⟨last, h1, ?_⟩
  simp only [run_new, runNewLoop_eq, h2]

theorem run_status_run_status (os : OsOracle) (p : Popen) (s : ReadState) :
    run_status os p (run_status os p s).snd =
      ((run_status os p s).fst, (run_status os p s).snd) := by
  cases h : s.statusAttr with
  | none => simp [run_status, h]
  | some v => simp [run_status, h]

/-- C1: at the failing input, a single-stage pipeline whose command prints
"hello\n" and exits 0 yields status 0 (as claimed) but stdout "None":
`run.__new__` launches `create_process` with `capture_output` left False,
so `communicate()[0]` is Python None and `std_output(None)` is the string
"None", not the printed text. -/
theorem c1_single_stage_stdout_lost :
    (run_new [] [] none false none [Cmd.str "echo hello"]).map
      (fun r => ((run_status demoOs r.fst.process freshState).fst,
                 (run_stdout demoOs r.fst.process freshState).fst)) =
      Except.ok (0, "None") := rfl

/-- C2: at the failing input, a two-stage pipeline wires the second
stage's stdin to Python None (inherit), not to the first stage's captured
output stream: no stage's stdout is a pipe, so `stdin = process.stdout`
assigns None. -/
theorem c2_stage2_stdin_inherited :
    (run_new [] [] none false none [Cmd.str "ls -la", Cmd.str "wc -l"]).map
      (fun r => (r.snd.map (fun st => st.process.stdinSpec),
                 r.snd.map (fun st => st.process.stdoutSpec))) =
      Except.ok ([StdSpec.pipe, StdSpec.noneVal], [none, none]) := rfl

/-- C3: reading `status` twice returns the same integer both times, and
the second read performs no further `communicate()` invocation. -/
theorem c3_status_idempotent (os : OsOracle) (p : Popen) (s : ReadState) :
    (run_status os p (run_status os p s).snd).fst = (run_status os p s).fst ∧
    (run_status os p (run_status os p s).snd).snd.commCount =
      (run_status os p s).snd.commCount := by
  rw [run_status_run_status]
  exact ⟨rfl, rfl⟩

/-- C4 counterexample: reading `stdout` twice on one stage invokes
`communicate()` twice — more than the claimed at-most-one invocation per
stage across any sequence of reads. -/
theorem c4_counterexample :
    (runReads demoOs demoPopen [ReadOp.stdoutOp, ReadOp.stdoutOp] freshState).commCount = 2 ∧
    ¬ (runReads demoOs demoPopen [ReadOp.stdoutOp, ReadOp.stdoutOp] freshState).commCount ≤ 1 :=
  ⟨rfl, by decide⟩

/-- C4 amended: only `status` is memoized.  Across any sequence of reads,
`communicate()` is invoked exactly once per `stdout`/`stderr` read, plus
once for a `status` read while the `_status` attribute is still absent;
once it is populated, further `status` reads invoke nothing. -/
theorem c4_only_status_cached (os : OsOracle) (p : Popen) :
    ∀ (ops : List ReadOp) (s : ReadState),
      (runReads os p ops s).commCount =
        s.commCount + commInvocations ops s.statusAttr.isSome := by
  intro ops
  induction ops with
  | nil => intro s; simp [runReads, commInvocations]
  | cons op rest ih =>
    intro s
    cases op with
    | statusOp =>
      cases h : s.statusAttr with
      | none =>
        simp [runReads, doRead, run_status, h, ih, commInvocations]
        omega
      | some v =>
        simp [runReads, doRead, run_status, h, ih, commInvocations]
    | stdoutOp =>
      simp [runReads, doRead, run_stdout, ih, commInvocations]
      omega
    | stderrOp =>
      simp [runReads, doRead, run_stderr, ih, commInvocations]
      omega

/-- C5: the chain recorded on stage i is the snapshot of stages 1..i in
construction order (conjuncts 1-2), each snapshot's last element is the
stage itself (conjunct 3), and building further stages leaves every
earlier stage's recorded chain unchanged (conjunct 4). -/
theorem c5_chain_snapshots (ctx : BuildCtx) (stdin : StdSpec) (cs ds : List Cmd) :
    (runNewLoop ctx cs stdin 0 []).map (fun res => res.map Prod.fst) =
      Except.ok (stagesSpec ctx cs stdin 0) ∧
    (runNewLoop ctx cs stdin 0 []).map (fun res => res.map Prod.snd) =
      Except.ok ((List.range cs.length).map
        (fun i => (stagesSpec ctx cs stdin 0).take (i + 1))) ∧
    (runNewLoop ctx cs stdin 0 []).map (fun res => res.map (fun e => e.snd.getLast?)) =
      (runNewLoop ctx cs stdin 0 []).map (fun res => res.map (fun e => some e.fst)) ∧
    (runNewLoop ctx (cs ++ ds) stdin 0 []).map (fun res => res.take cs.length) =
      runNewLoop ctx cs stdin 0 [] := by
  refine ⟨?_, ?_, ?_, ?_⟩
  · rw [runNewLoop_eq]
    simp [Except.map, loopSpec_map_fst]
  · rw [runNewLoop_eq]
    simp [Except.map, loopSpec_map_snd]
  · rw [runNewLoop_eq]
    simp only [Except.map]
    refine congrArg Except.ok (List.map_congr_left ?_)
    intro e he
    exact loopSpec_snd_getLast ctx cs stdin 0 [] e he
  · rw [runNewLoop_eq, runNewLoop_eq]
    simp [Except.map, loopSpec_append_take]

/-- C6: the repr of the returned result is the original command
specifications (token lists re-joined by spaces) joined by " | " in
pipeline order. -/
theorem c6_repr_joins (aEnv eKw : List (String × String)) (cwd : Option String) (sh : Bool)
    (stdinKw : Option StdSpec) (cmds : List Cmd) (h : cmds ≠ []) :
    (run_new aEnv eKw cwd sh stdinKw cmds).map (fun r => run_repr r.snd) =
      Except.ok (String.intercalate " | " (cmds.map displayCmd)) := by
  obtain ⟨last, h1, h2⟩ := run_new_ok aEnv eKw cwd sh stdinKw cmds h
  rw [h2]
  simp only [Except.map, run_repr]
  conv_rhs => rw [← stagesSpec_map_command { cwd := cwd, env := dictUpdate aEnv eKw, shell := sh }
      cmds (stdinKw.getD StdSpec.pipe) 0]
  rw [List.map_map]
  rfl

/-- C6 witness: a concrete two-stage pipeline's repr. -/
theorem c6_witness :
    ([Cmd.str "ls -la", Cmd.str "wc -l"] ≠ ([] : List Cmd)) ∧
    (run_new [] [] none false none [Cmd.str "ls -la", Cmd.str "wc -l"]).map
        (fun r => run_repr r.snd) =
      Except.ok (String.intercalate " | "
        ([Cmd.str "ls -la", Cmd.str "wc -l"].map displayCmd)) :=
  ⟨by decide, c6_repr_joins [] [] none false none [Cmd.str "ls -la", Cmd.str "wc -l"] (by decide)⟩

/-- C7: `check_returncode` raises `CalledProcessError`, carrying the
(cached or just-read) exit status and the stage's command, exactly when
that status is non-zero, and is a no-op otherwise. -/
theorem c7_check_raises_iff (os : OsOracle) (p : Popen) (cmd : Cmd) (s : ReadState) :
    (check_returncode os p cmd s).fst =
      (if (run_status os p s).fst = 0 then Except.ok ()
       else Except.error (PyError.calledProcessError (run_status os p s).fst cmd)) := by
  unfold check_returncode
  by_cases h : (run_status os p s).fst = 0
  · simp [h]
  · simp [h, run_status_run_status]

/-- C8 counterexample: with zero command specifications the constructor
does raise, but the error is the accidental `UnboundLocalError` from
`return obj` with the loop never executed, not an explicitly coded
rejection. -/
theorem c8_counterexample :
    run_new [] [] none false none [] = Except.error PyError.unboundLocalError ∧
    PyError.isExplicitlyRaised PyError.unboundLocalError = false :=
  ⟨rfl, rfl⟩

/-- C8 amended: with zero command specifications the constructor always
raises `UnboundLocalError` (never silently returns an empty handle). -/
theorem c8_zero_commands_error (aEnv eKw : List (String × String)) (cwd : Option String)
    (sh : Bool) (stdinKw : Option StdSpec) :
    run_new aEnv eKw cwd sh stdinKw [] = Except.error PyError.unboundLocalError := rfl

/-- C9 counterexample: `.qlines` of "a b\nc d\n" carries a trailing empty
word list from the empty final line, so it is not the claimed
two-element list. -/
theorem c9_counterexample :
    std_output.qlines "a b\nc d\n" = [["a", "b"], ["c", "d"], []] ∧
    std_output.qlines "a b\nc d\n" ≠ [["a", "b"], ["c", "d"]] :=
  ⟨by decide, by decide⟩

/-- C9 amended: `.lines` of "a b\nc d\n" is ["a b", "c d", ""] (the
trailing-empty policy) and `.qlines` is [["a","b"], ["c","d"], []]. -/
theorem c9_views :
    std_output.lines "a b\nc d\n" = ["a b", "c d", ""] ∧
    std_output.qlines "a b\nc d\n" = [["a", "b"], ["c", "d"], []] :=
  ⟨by decide, by decide⟩

/-- C10: the returned result is itself a string value equal to the last
command specification: for a pipeline whose last command is the string t,
the baked-in text of the result is t, the command text, not the process
output. -/
theorem c10_result_text_is_last_command (aEnv eKw : List (String × String))
    (cwd : Option String) (sh : Bool) (stdinKw : Option StdSpec) (cmds : List Cmd)
    (t : String) (h : cmds.getLast? = some (Cmd.str t)) :
    (run_new aEnv eKw cwd sh stdinKw cmds).map (fun r => r.fst.strValue) =
      Except.ok t := by
  have hne : cmds ≠ [] := by
    intro he
    subst he
    simp at h
  obtain ⟨last, h1, h2⟩ := run_new_ok aEnv eKw cwd sh stdinKw cmds hne
  rw [h2]
  have h4 : ((stagesSpec { cwd := cwd, env := dictUpdate aEnv eKw, shell := sh } cmds
      (stdinKw.getD StdSpec.pipe) 0).map (fun st => st.strValue)).getLast? =
      some last.strValue := by
    rw [List.getLast?_map, h1]
    rfl
  rw [stagesSpec_map_strValue] at h4
  rw [List.getLast?_map, h] at h4
  simp [pyStrOfCmd] at h4
  simp [Except.map, h4]

/-- C10 witness: a concrete single-stage pipeline. -/
theorem c10_witness :
    ([Cmd.str "uname -r"].getLast? = some (Cmd.str "uname -r")) ∧
    (run_new [] [] none false none [Cmd.str "uname -r"]).map (fun r => r.fst.strValue) =
      Except.ok "uname -r" :=
  ⟨rfl, c10_result_text_is_last_command [] [] none false none [Cmd.str "uname -r"]
    "uname -r" rfl⟩

end SubprocessRun
